import Mathlib

/-!
Verification of the todolist-collection REST API core
(`src/api/src/controllers/todosController.ts` and the express app wiring).

The handlers are embedded as pure functions over an explicit JavaScript
value model: a request body is a finite list of string-keyed fields, the
store is a list of items, and each awaited store call is either inlined
(for the operations whose behavior the natural-language specification
fixes) or abstracted as its outcome (`Except Unit α`, an exception caught
by the handler's try/catch boundary).
-/

/-- A JavaScript value, as far as the handlers observe it: the controller
only ever tests fields for truthiness and strict equality with `""`.
(NaN and objects are out of scope; no handler produces or branches on them.) -/
inductive Js where
  | undef
  | null
  | bool (b : Bool)
  | num (n : Int)
  | str (s : String)
deriving DecidableEq, Repr

/-- JavaScript truthiness: `undefined`, `null`, `false`, `0` and `""` are
falsy, everything else is truthy. -/
def Js.truthy : Js → Bool
  | .undef => false
  | .null => false
  | .bool b => b
  | .num n => n != 0
  | .str s => s != ""

/-- A JSON object / request body: a list of named fields. -/
abbrev JsObj := List (String × Js)

/-- Property access `o.k`: the first field named `k`, or `undefined`
when the key is absent. -/
def getField (o : JsObj) (k : String) : Js :=
  match o.find? (fun p => p.1 == k) with
  | some p => p.2
  | none => Js.undef

/-- A stored to-do item: `_id` generated by the store, `title`, `completed`. -/
structure Item where
  id : String
  title : String
  completed : Bool
deriving DecidableEq, Repr

/-- The bodies the handlers can serialize with `res.json(...)`. -/
inductive Body where
  | json (o : JsObj)
  | item (it : Item)
  | items (l : List Item)
  | jsNull
  | empty
deriving DecidableEq, Repr

/-- An HTTP response: status code and body. -/
structure Response where
  status : Nat
  body : Body
deriving DecidableEq, Repr

/-- `{error: "Internal server error"}` — the generic failure body. -/
def internalErrorBody : Body := Body.json [("error", Js.str "Internal server error")]

/-- `{error: "Invalid request"}` — the update pre-validation failure body. -/
def invalidRequestBody : Body := Body.json [("error", Js.str "Invalid request")]

/-- `{error: "Invalid Id"}` — the malformed-identifier failure body. -/
def invalidIdBody : Body := Body.json [("error", Js.str "Invalid Id")]

/-- `getAllTodos` from `todosController.ts`: `Todo.find({})` is awaited
inside try/catch; success returns 200 with the items, any raised store
error returns 500 with the generic body. The store call is abstracted as
its outcome. -/
def getAllTodos (findResult : Except Unit (List Item)) : Response :=
  match findResult with
  | .ok todos => ⟨200, Body.items todos⟩
  | .error _ => ⟨500, internalErrorBody⟩

/-- `addTodo` from `todosController.ts`: `new Todo(req.body).save()` is
awaited inside try/catch; success returns 201 with the saved item, any
raised store error (including schema validation) returns 500 generic. -/
def addTodo (saveResult : Except Unit Item) : Response :=
  match saveResult with
  | .ok newTodo => ⟨201, Body.item newTodo⟩
  | .error _ => ⟨500, internalErrorBody⟩

/-- The `editTodo` pre-validation from `todosController.ts`:
`(!newValue.title && !newValue.completed) || newValue.title === ""`. -/
def invalidEditBody (body : JsObj) : Bool :=
  (!(getField body "title").truthy && !(getField body "completed").truthy)
    || decide (getField body "title" = Js.str "")

/-- Modelled from the spec: a syntactically valid store identifier is a
"fixed-length hexadecimal token in the reference store" — 24 hexadecimal
characters (a MongoDB ObjectId in string form). -/
def isHexChar (c : Char) : Bool :=
  "0123456789abcdefABCDEF".toList.contains c

/-- Modelled from the spec: identifier syntactic validity (§4.3). -/
def isValidId (s : String) : Bool :=
  s.length == 24 && s.toList.all isHexChar

/-- Modelled from the spec: the store-side merge of an update document
into an existing Item — "merge supplied fields into the existing Item"
(§4.1 Update); a supplied `title` string replaces the title, a supplied
`completed` boolean replaces the flag, everything else of the Item is
kept. -/
def applyUpdate (it : Item) (upd : JsObj) : Item :=
  let it1 :=
    match getField upd "title" with
    | Js.str t => { it with title := t }
    | _ => it
  match getField upd "completed" with
  | Js.bool b => { it1 with completed := b }
  | _ => it1

/-- Modelled from the spec: `Todo.findByIdAndUpdate(id, upd, {new: true})`
of the document store (the model module is not under src/). A
syntactically invalid identifier makes the store raise (cast error)
before any write; a valid identifier that matches no Item yields a null
result and leaves the store unchanged; a match is merged with the update
document and the updated Item is returned (§4.1, §4.3). -/
def findByIdAndUpdate (store : List Item) (id : String) (upd : JsObj) :
    Except Unit (List Item × Option Item) :=
  if isValidId id then
    match store.find? (fun x => x.id == id) with
    | some it =>
        Except.ok
          (store.map (fun x => if x.id == id then applyUpdate it upd else x),
           some (applyUpdate it upd))
    | none => Except.ok (store, none)
  else Except.error ()

/-- `editTodo` from `todosController.ts`, composed with the modelled
store call. Returns the response, the resulting store contents, and a
trace of the store interaction: `none` when the handler returned before
calling the store, `some (id, doc)` when `Todo.findByIdAndUpdate` was
invoked with identifier `id` and update document `doc`. The handler
passes `req.params.id` and `req.body` to the store unchanged. -/
def editTodo (store : List Item) (id : String) (body : JsObj) :
    Response × List Item × Option (String × JsObj) :=
  if invalidEditBody body then
    (⟨400, invalidRequestBody⟩, store, none)
  else
    match findByIdAndUpdate store id body with
    | .error _ => (⟨500, internalErrorBody⟩, store, some (id, body))
    | .ok (st2, some it) => (⟨200, Body.item it⟩, st2, some (id, body))
    | .ok (st2, none) => (⟨200, Body.jsNull⟩, st2, some (id, body))

/-- Modelled from the spec: `Todo.find({})` retrieves every Item in the
collection (§4.1 List). -/
def todoFind (store : List Item) : List Item := store

/-- Modelled from the spec: `new Todo(req.body).save()` against the Todo
schema (the model module is not under src/): `title` is required and
non-empty, `completed` is a boolean defaulting to `false` when omitted,
and the store generates the identifier `genId` on insert (§3, §4.1
Create). A missing or empty title, or an ill-typed field, makes the save
raise a validation error. -/
def todoSave (genId : String) (body : JsObj) : Except Unit Item :=
  match getField body "title" with
  | Js.str t =>
      if t = "" then Except.error ()
      else
        match getField body "completed" with
        | Js.undef => Except.ok ⟨genId, t, false⟩
        | Js.bool b => Except.ok ⟨genId, t, b⟩
        | _ => Except.error ()
  | _ => Except.error ()

/-- Modelled from the spec: the delete handler (absent from src/; §4.1
Delete): a syntactically invalid identifier yields 400
`{error: "Invalid Id"}` before any store call; otherwise the Item with
that identifier is removed and 200 returned, or 500 generic when the
store raises. The final component records whether the store was invoked. -/
def deleteTodo (store : List Item) (id : String) (storeFails : Bool) :
    Response × List Item × Bool :=
  if isValidId id = false then
    (⟨400, invalidIdBody⟩, store, false)
  else if storeFails then
    (⟨500, internalErrorBody⟩, store, true)
  else
    (⟨200, Body.empty⟩, store.filter (fun x => x.id != id), true)

/-- Modelled from the spec: the test reset handler
(`routes/testingRouter.ts`, not under src/; §4.2): delete every Item,
200 on success, 500 generic when the store raises. -/
def deleteAllHandler (store : List Item) (storeFails : Bool) :
    Response × List Item :=
  if storeFails then (⟨500, internalErrorBody⟩, store)
  else (⟨200, Body.empty⟩, [])

/-- The mounted base paths of the express app, from `index.ts`:
`/api/todos` always, `/api/test` exactly when
`process.env.NODE_ENV === "test"`. -/
def appMounts (nodeEnv : String) : List String :=
  ["/api/todos"] ++ (if nodeEnv == "test" then ["/api/test"] else [])

/-- Dispatch of `POST /api/test/deleteAll` by the express app: the
conditional mount is from `index.ts`; that a request to an unmounted
path yields 404 with no handler run is standard express routing
(modelled from the spec: "This endpoint must be unreachable (404) when
the process is not in test mode", §4.2). -/
def dispatchDeleteAll (nodeEnv : String) (store : List Item) (storeFails : Bool) :
    Response × List Item :=
  if nodeEnv == "test" then deleteAllHandler store storeFails
  else (⟨404, Body.empty⟩, store)

/-- C7: the list operation responds 200 with exactly the Items currently
in the collection (the empty sequence for an empty collection) and 500
with the generic body whenever the store find raises. -/
theorem C7_list_all_items :
    (∀ store : List Item, getAllTodos (Except.ok (todoFind store)) = ⟨200, Body.items store⟩) ∧
    getAllTodos (Except.ok (todoFind [])) = ⟨200, Body.items []⟩ ∧
    getAllTodos (Except.error ()) = ⟨500, internalErrorBody⟩ := by
  refine ⟨fun store => rfl, rfl, rfl⟩

/-- C3: every store error on create is mapped to 500 with the generic
body; in particular `{title: ""}` makes the modelled schema validation
raise, so creating it yields the 500 generic body; the create handler
can never respond 400. -/
theorem C3_create_error_is_500 :
    addTodo (Except.error ()) = ⟨500, internalErrorBody⟩ ∧
    (∀ genId : String, todoSave genId [("title", Js.str "")] = Except.error ()) ∧
    (∀ genId : String,
      addTodo (todoSave genId [("title", Js.str "")]) = ⟨500, internalErrorBody⟩) ∧
    (∀ r : Except Unit Item, (addTodo r).status ≠ 400) := by
  refine ⟨rfl, fun genId => rfl, fun genId => rfl, fun r => ?_⟩
  cases r <;> simp [addTodo]

/-- C6: creating with a non-empty `title` and `completed` omitted
succeeds in the modelled store and responds 201 with the persisted Item:
the generated id, the supplied title, and `completed = false`. -/
theorem C6_create_defaults_completed (body : JsObj) (genId t : String)
    (htitle : getField body "title" = Js.str t) (ht : t ≠ "")
    (hcomp : getField body "completed" = Js.undef) :
    todoSave genId body = Except.ok ⟨genId, t, false⟩ ∧
    addTodo (todoSave genId body) = ⟨201, Body.item ⟨genId, t, false⟩⟩ := by
  have hsave : todoSave genId body = Except.ok ⟨genId, t, false⟩ := by
    simp [todoSave, htitle, hcomp, ht]
  exact ⟨hsave, by rw [hsave]; rfl⟩

theorem C6_create_defaults_completed_witness :
    todoSave "64fb1a0f41995f2690f6cf8a" [("title", Js.str "Make a cake")] =
      Except.ok ⟨"64fb1a0f41995f2690f6cf8a", "Make a cake", false⟩ ∧
    addTodo (todoSave "64fb1a0f41995f2690f6cf8a" [("title", Js.str "Make a cake")]) =
      ⟨201, Body.item ⟨"64fb1a0f41995f2690f6cf8a", "Make a cake", false⟩⟩ :=
  C6_create_defaults_completed [("title", Js.str "Make a cake")]
    "64fb1a0f41995f2690f6cf8a" "Make a cake" (by decide) (by decide) (by decide)

/-- C4: a PATCH whose payload passes pre-validation, with a
syntactically valid identifier matching no stored Item, responds 200
with a null body — not 404 and not 500. -/
theorem C4_update_missing_id_is_200_null (store : List Item) (id : String) (body : JsObj)
    (hid : isValidId id = true)
    (hbody : invalidEditBody body = false)
    (habsent : store.find? (fun x => x.id == id) = none) :
    (editTodo store id body).1 = ⟨200, Body.jsNull⟩ := by
  simp [editTodo, hbody, findByIdAndUpdate, hid, habsent]

theorem C4_update_missing_id_is_200_null_witness :
    (editTodo [] "64fb1a0f41995f2690f6cf8a" [("completed", Js.bool true)]).1 =
      ⟨200, Body.jsNull⟩ :=
  C4_update_missing_id_is_200_null [] "64fb1a0f41995f2690f6cf8a"
    [("completed", Js.bool true)] (by decide) (by decide) (by decide)

/-- C5: a successful `completed`-only PATCH of a stored Item returns 200
with the post-update Item — same id, same title, `completed` set to the
payload value — and a `title`-only PATCH returns 200 with the post-update
Item whose `completed` is unchanged. -/
theorem C5_merge_preserves_other_field (store : List Item) (it : Item) (b : Bool) (t : String)
    (hid : isValidId it.id = true)
    (hfind : store.find? (fun x => x.id == it.id) = some it)
    (hb : invalidEditBody [("completed", Js.bool b)] = false)
    (ht : t ≠ "") :
    (editTodo store it.id [("completed", Js.bool b)]).1 =
      ⟨200, Body.item ⟨it.id, it.title, b⟩⟩ ∧
    (editTodo store it.id [("title", Js.str t)]).1 =
      ⟨200, Body.item ⟨it.id, t, it.completed⟩⟩ := by
  have hb2 : invalidEditBody [("title", Js.str t)] = false := by
    simp [invalidEditBody, getField, Js.truthy, ht]
  constructor
  · simp [editTodo, hb, findByIdAndUpdate, hid, hfind, applyUpdate, getField]
  · simp [editTodo, hb2, findByIdAndUpdate, hid, hfind, applyUpdate, getField]

theorem C5_merge_preserves_other_field_witness :
    (editTodo [⟨"64fb1a0f41995f2690f6cf8a", "Walk cat", false⟩]
        "64fb1a0f41995f2690f6cf8a" [("completed", Js.bool true)]).1 =
      ⟨200, Body.item ⟨"64fb1a0f41995f2690f6cf8a", "Walk cat", true⟩⟩ ∧
    (editTodo [⟨"64fb1a0f41995f2690f6cf8a", "Walk cat", false⟩]
        "64fb1a0f41995f2690f6cf8a" [("title", Js.str "Walk dog")]).1 =
      ⟨200, Body.item ⟨"64fb1a0f41995f2690f6cf8a", "Walk dog", false⟩⟩ :=
  C5_merge_preserves_other_field [⟨"64fb1a0f41995f2690f6cf8a", "Walk cat", false⟩]
    ⟨"64fb1a0f41995f2690f6cf8a", "Walk cat", false⟩ true "Walk dog"
    (by decide) (by decide) (by decide) (by decide)

/-- C9: under the literal pre-validation condition, a payload with only a
truthy `completed` and no `title` key passes the check and the store
update is invoked, while a payload whose `completed` is present but falsy
(and no `title`) is rejected with 400 `{error: "Invalid request"}` before
any store call. -/
theorem C9_completed_truthiness (store : List Item) (id : String) (c : Js)
    (hc : c.truthy = true) :
    ((editTodo store id [("completed", c)]).2.2 = some (id, [("completed", c)])) ∧
    (∀ c2 : Js, c2.truthy = false →
      (editTodo store id [("completed", c2)]).1 = ⟨400, invalidRequestBody⟩ ∧
      (editTodo store id [("completed", c2)]).2.2 = none) := by
  constructor
  · have hundef : Js.truthy Js.undef = false := rfl
    have hpass : invalidEditBody [("completed", c)] = false := by
      simp [invalidEditBody, getField, hundef, hc]
    rcases hcall : findByIdAndUpdate store id [("completed", c)] with e | ⟨st2, it?⟩
    · simp [editTodo, hpass, hcall]
    · cases it? <;> simp [editTodo, hpass, hcall]
  · intro c2 hc2
    have hundef : Js.truthy Js.undef = false := rfl
    have hrej : invalidEditBody [("completed", c2)] = true := by
      simp [invalidEditBody, getField, hundef, hc2]
    exact ⟨by simp [editTodo, hrej], by simp [editTodo, hrej]⟩

theorem C9_completed_truthiness_witness :
    ((editTodo [] "64fb1a0f41995f2690f6cf8a" [("completed", Js.bool true)]).2.2 =
      some ("64fb1a0f41995f2690f6cf8a", [("completed", Js.bool true)])) ∧
    (∀ c2 : Js, c2.truthy = false →
      (editTodo [] "64fb1a0f41995f2690f6cf8a" [("completed", c2)]).1 =
        ⟨400, invalidRequestBody⟩ ∧
      (editTodo [] "64fb1a0f41995f2690f6cf8a" [("completed", c2)]).2.2 = none) :=
  C9_completed_truthiness [] "64fb1a0f41995f2690f6cf8a" (Js.bool true) (by decide)

/-- C10: every PATCH payload that passes pre-validation is forwarded to
the store unchanged as the update document — fields beyond `title` and
`completed` included. -/
theorem C10_body_forwarded_unchanged (store : List Item) (id : String) (body : JsObj)
    (h : invalidEditBody body = false) :
    (editTodo store id body).2.2 = some (id, body) := by
  rcases hcall : findByIdAndUpdate store id body with e | ⟨st2, it?⟩
  · simp [editTodo, h, hcall]
  · cases it? <;> simp [editTodo, h, hcall]

theorem C10_body_forwarded_unchanged_witness :
    (editTodo [] "64fb1a0f41995f2690f6cf8a"
        [("title", Js.str "Walk dog"), ("extra", Js.num 5)]).2.2 =
      some ("64fb1a0f41995f2690f6cf8a",
        [("title", Js.str "Walk dog"), ("extra", Js.num 5)]) :=
  C10_body_forwarded_unchanged [] "64fb1a0f41995f2690f6cf8a"
    [("title", Js.str "Walk dog"), ("extra", Js.num 5)] (by decide)

/-- C1 as frozen is false at a payload that supplies `completed` (and no
`title`) with the value `false`: it supplies one of the two fields and no
empty title, yet the handler responds 400 `{error: "Invalid request"}`
without calling the store, because the check tests truthiness rather
than presence. -/
theorem C1_counterexample :
    (editTodo [] "64fb1a0f41995f2690f6cf8a" [("completed", Js.bool false)]).1 =
      ⟨400, invalidRequestBody⟩ ∧
    (editTodo [] "64fb1a0f41995f2690f6cf8a" [("completed", Js.bool false)]).2.2 =
      none := by
  decide

/-- C1 (amended): the PATCH handler responds 400
`{error: "Invalid request"}` and returns without calling the store
exactly when the payload supplies no truthy `title` and no truthy
`completed`, or its `title` equals the empty string; every other payload
passes pre-validation. -/
theorem C1_prevalidation_exact (store : List Item) (id : String) (body : JsObj) :
    ((editTodo store id body).1 = ⟨400, invalidRequestBody⟩ ∧
     (editTodo store id body).2.2 = none)
    ↔ (((getField body "title").truthy = false ∧
        (getField body "completed").truthy = false) ∨
       getField body "title" = Js.str "") := by
  constructor
  · intro hlhs
    by_cases h : invalidEditBody body
    · simpa [invalidEditBody] using h
    · exfalso
      rcases hcall : findByIdAndUpdate store id body with e | ⟨st2, it?⟩
      · have h2 := hlhs.2
        simp [editTodo, h, hcall] at h2
      · have h2 := hlhs.2
        cases it? <;> simp [editTodo, h, hcall] at h2
  · intro hrhs
    have h : invalidEditBody body = true := by
      simpa [invalidEditBody] using hrhs
    simp [editTodo, h]

/-- C2 as frozen is false for the update handler: at identifier "123"
(not a valid store identifier) with payload `{title: "Walk dog"}` the
handler invokes the store, whose cast failure is caught and mapped to
500 `{error: "Internal server error"}` — not 400 `{error: "Invalid Id"}`
and not store-free, matching the repository's own integration test for
`PATCH /todos/123`. -/
theorem C2_counterexample :
    (editTodo [] "123" [("title", Js.str "Walk dog")]).1 =
      ⟨500, internalErrorBody⟩ ∧
    (editTodo [] "123" [("title", Js.str "Walk dog")]).2.2 =
      some ("123", [("title", Js.str "Walk dog")]) := by
  decide

/-- C2 (amended): for an update whose payload passes pre-validation and
whose identifier is syntactically invalid, the store update IS invoked
and its failure yields 500 with the generic body; the update handler
never produces the `{error: "Invalid Id"}` body at all. The delete
handler is absent from the source; modelled from the spec, it rejects a
syntactically invalid identifier with 400 `{error: "Invalid Id"}` and no
store call. -/
theorem C2_invalid_id_behavior (store : List Item) (id : String) (body : JsObj)
    (h1 : isValidId id = false) (h2 : invalidEditBody body = false) :
    ((editTodo store id body).1 = ⟨500, internalErrorBody⟩ ∧
     (editTodo store id body).2.2 = some (id, body)) ∧
    (∀ s2 : List Item, ∀ b2 : JsObj, (editTodo s2 id b2).1.body ≠ invalidIdBody) ∧
    (∀ fails : Bool, deleteTodo store id fails = (⟨400, invalidIdBody⟩, store, false)) := by
  refine ⟨?_, ?_, ?_⟩
  · constructor <;> simp [editTodo, h2, findByIdAndUpdate, h1]
  · intro s2 b2
    by_cases hv : invalidEditBody b2
    · have hb : (editTodo s2 id b2).1.body = invalidRequestBody := by
        simp [editTodo, hv]
      rw [hb]; decide
    · rcases hcall : findByIdAndUpdate s2 id b2 with e | ⟨st2, it?⟩
      · have hb : (editTodo s2 id b2).1.body = internalErrorBody := by
          simp [editTodo, hv, hcall]
        rw [hb]; decide
      · cases it? with
        | none =>
            have hb : (editTodo s2 id b2).1.body = Body.jsNull := by
              simp [editTodo, hv, hcall]
            rw [hb]; decide
        | some it =>
            have hb : (editTodo s2 id b2).1.body = Body.item it := by
              simp [editTodo, hv, hcall]
            rw [hb]
            simp [invalidIdBody]
  · intro fails
    simp [deleteTodo, h1]

theorem C2_invalid_id_behavior_witness :
    (((editTodo [] "123" [("title", Js.str "x")]).1 = ⟨500, internalErrorBody⟩ ∧
      (editTodo [] "123" [("title", Js.str "x")]).2.2 =
        some ("123", [("title", Js.str "x")])) ∧
     (∀ s2 : List Item, ∀ b2 : JsObj, (editTodo s2 "123" b2).1.body ≠ invalidIdBody) ∧
     (∀ fails : Bool, deleteTodo [] "123" fails = (⟨400, invalidIdBody⟩, [], false))) :=
  C2_invalid_id_behavior [] "123" [("title", Js.str "x")] (by decide) (by decide)

/-- C8: the `/api/test` mount is present in the app exactly when
`NODE_ENV` is "test" (both directions of the biconditional); in test
mode `POST /api/test/deleteAll` is dispatched to the reset handler,
while outside test mode it yields 404 and leaves the collection
untouched, whatever the store would have done. -/
theorem C8_test_route_gated (env : String) (store : List Item) (fails : Bool) :
    ("/api/test" ∈ appMounts env ↔ env = "test") ∧
    (env ≠ "test" →
      dispatchDeleteAll env store fails = (⟨404, Body.empty⟩, store)) ∧
    (∀ st : List Item, ∀ fl : Bool,
      dispatchDeleteAll "test" st fl = deleteAllHandler st fl) := by
  refine ⟨?_, ?_, ?_⟩
  · constructor
    · intro hmem
      by_cases hcase : env = "test"
      · exact hcase
      · simp [appMounts, hcase] at hmem
    · intro hcase
      simp [appMounts, hcase]
  · intro h
    have he : (env == "test") = false := by
      simp [h]
    simp [dispatchDeleteAll, he]
  · intro st fl
    simp [dispatchDeleteAll]

theorem C8_test_route_gated_witness :
    ("/api/test" ∈ appMounts "production" ↔ "production" = "test") ∧
    dispatchDeleteAll "production" [⟨"64fb1a0f41995f2690f6cf8a", "Feed dog", false⟩] false =
      (⟨404, Body.empty⟩, [⟨"64fb1a0f41995f2690f6cf8a", "Feed dog", false⟩]) ∧
    ("/api/test" ∈ appMounts "test" ↔ "test" = "test") ∧
    dispatchDeleteAll "test" [⟨"64fb1a0f41995f2690f6cf8a", "Feed dog", false⟩] false =
      (⟨200, Body.empty⟩, []) := by
  obtain ⟨h1, h2, _⟩ :=
    C8_test_route_gated "production" [⟨"64fb1a0f41995f2690f6cf8a", "Feed dog", false⟩] false
  obtain ⟨h4, _, h6⟩ :=
    C8_test_route_gated "test" [⟨"64fb1a0f41995f2690f6cf8a", "Feed dog", false⟩] false
  refine ⟨h1, h2 (by decide), h4, ?_⟩
  rw [h6 [⟨"64fb1a0f41995f2690f6cf8a", "Feed dog", false⟩] false]
  rfl
